import Mathlib

/-!
Verification of the prompt-lab core (src/services/claude_client.py,
src/services/cost_tracker.py, src/services/file_manager.py, src/config.py)
against its natural-language specification.

The Python code is shallowly embedded: JSON documents (the values produced
by json.loads and consumed by the code) are the inductive type `Json`;
Python operations that can raise (`d.get`, `d[k]`, `x in d`, `.items()`,
iteration, `str.join`) are modelled as `Except PyError` computations that
return `.error` exactly where CPython raises.  The stdlib pieces the code
calls (json.loads, str.format) are modelled as follows: the outcome of
json.loads is passed in explicitly as `Except Unit Json` (the network
response carries both the raw text and its decode outcome), and
str.format is implemented on an explicitly delimited fragment — literal
text, doubled-brace escapes, and plain named fields `\x7bname\x7d` with no
conversion, format spec, attribute/index access, or positional fields.
The tokenizer returns `none` for templates outside that fragment, every
theorem about template behaviour carries a `tokenizeT … = some …`
hypothesis confining it to the fragment, and on the fragment the model
coincides with CPython's `str.format` exactly.
-/

namespace PromptLab

/-- JSON values as produced by `json.loads`: null, booleans, numbers,
strings, arrays, and objects (ordered key/value lists, as Python dicts
preserve insertion order). -/
inductive Json where
  | null : Json
  | bool (b : Bool) : Json
  | num (q : ℚ) : Json
  | str (s : String) : Json
  | arr (elems : List Json) : Json
  | obj (fields : List (String × Json)) : Json

/-- Key lookup in an object's field list (Python dict access; first match). -/
def Json.lookup : List (String × Json) → String → Option Json
  | [], _ => none
  | (k, v) :: rest, key => if k = key then some v else Json.lookup rest key

/-- Python exceptions the embedded code can raise. -/
inductive PyError where
  | attributeError : PyError
  | typeError : PyError
  | keyError (key : String) : PyError
  | valueError : PyError
deriving DecidableEq

/-- Substring test on character lists (Python `needle in haystack` for
strings). -/
def hasSubstr (needle : List Char) : List Char → Bool
  | [] => needle.isEmpty
  | c :: rest => needle.isPrefixOf (c :: rest) || hasSubstr needle rest

/-- Python `elem == "key"` as used by list membership: a JSON string equals
a Python string only when it is that string. -/
def jsonEqStr (j : Json) (s : String) : Bool :=
  match j with
  | .str t => t = s
  | _ => false

/-- Python `key in x`: key membership for dicts, substring test for
strings, element membership for lists, TypeError otherwise. -/
def pyContains (j : Json) (key : String) : Except PyError Bool :=
  match j with
  | .obj kvs => .ok (Json.lookup kvs key).isSome
  | .str s => .ok (hasSubstr key.data s.data)
  | .arr xs => .ok (xs.any (jsonEqStr · key))
  | _ => .error .typeError

/-- Python `x.get(key, default)`: AttributeError when `x` is not a dict. -/
def pyGet (j : Json) (key : String) (dflt : Json) : Except PyError Json :=
  match j with
  | .obj kvs => .ok ((Json.lookup kvs key).getD dflt)
  | _ => .error .attributeError

/-- Python `x[key]` with a string key: KeyError on a dict missing the key,
TypeError on any non-dict. -/
def pyIndex (j : Json) (key : String) : Except PyError Json :=
  match j with
  | .obj kvs =>
    match Json.lookup kvs key with
    | some v => .ok v
    | none => .error (.keyError key)
  | _ => .error .typeError

/-- Python `x.items()`: AttributeError when `x` is not a dict. -/
def pyItems (j : Json) : Except PyError (List (String × Json)) :=
  match j with
  | .obj kvs => .ok kvs
  | _ => .error .attributeError

/-- Python truthiness of a JSON value. -/
def pyTruthy (j : Json) : Bool :=
  match j with
  | .null => false
  | .bool b => b
  | .num q => q != 0
  | .str s => s ≠ ""
  | .arr xs => !xs.isEmpty
  | .obj kvs => !kvs.isEmpty

/-- Rendering of an integer-valued rational the way Python prints an int
(the code only ever interpolates integers and strings in the claims under
study; non-integral numbers are rendered with an explicit denominator,
a deviation from CPython float printing that no claim exercises). -/
def numStr (q : ℚ) : String :=
  if q.den = 1 then toString q.num else toString q.num ++ "/" ++ toString q.den

mutual

/-- Python `str(value)` for decoded JSON values (used by f-string
interpolation): strings verbatim, None/True/False, containers via repr. -/
def pyStr : Json → String
  | .null => "None"
  | .bool true => "True"
  | .bool false => "False"
  | .num q => numStr q
  | .str s => s
  | .arr xs => "[" ++ pyReprList xs ++ "]"
  | .obj kvs => "\x7b" ++ pyReprFields kvs ++ "\x7d"

/-- Python `repr(value)`: like `pyStr` but strings are single-quoted
(quote escaping inside the string is not modelled; no claim renders a
container holding a quote character). -/
def pyRepr : Json → String
  | .null => "None"
  | .bool true => "True"
  | .bool false => "False"
  | .num q => numStr q
  | .str s => "\x27" ++ s ++ "\x27"
  | .arr xs => "[" ++ pyReprList xs ++ "]"
  | .obj kvs => "\x7b" ++ pyReprFields kvs ++ "\x7d"

/-- Comma-joined reprs of list elements. -/
def pyReprList : List Json → String
  | [] => ""
  | [x] => pyRepr x
  | x :: rest => pyRepr x ++ ", " ++ pyReprList rest
termination_by structural l => l

/-- Comma-joined `'key': repr` pairs of dict entries. -/
def pyReprFields : List (String × Json) → String
  | [] => ""
  | [(k, v)] => "\x27" ++ k ++ "\x27: " ++ pyRepr v
  | (k, v) :: rest => "\x27" ++ k ++ "\x27: " ++ pyRepr v ++ ", " ++ pyReprFields rest
termination_by structural l => l

end

/-- Python `sep.join(x)`: joins a list of strings (TypeError on a non-string
element), joins the characters of a string, TypeError otherwise. -/
def pyJoin (sep : String) (j : Json) : Except PyError String :=
  match j with
  | .arr xs => do
    let strs ← xs.mapM (fun e => match e with
      | .str s => Except.ok s
      | _ => Except.error PyError.typeError)
    return String.intercalate sep strs
  | .str s => .ok (String.intercalate sep (s.data.map Char.toString))
  | _ => .error .typeError

/-! ## Configuration constants (src/config.py) -/

/-- Per-million-token input price (src/config.py line 25). -/
def CLAUDE_INPUT_PRICE : ℚ := 3

/-- Per-million-token output price (src/config.py line 26). -/
def CLAUDE_OUTPUT_PRICE : ℚ := 15

/-- Model identifier (src/config.py line 20). -/
def CLAUDE_MODEL : String := "claude-3-5-sonnet-20241022"

/-! ## Tool-Text Renderer (`_build_user_prompt`, claude_client.py 80-124) -/

/-- The inner attribute loop of the capability extraction
(claude_client.py 105-107): keep string values whose key has no
underscore, appending in iteration order.  -/
def attrCaps (attrs : List (String × Json)) : List String :=
  attrs.foldl
    (fun acc kv =>
      match kv.2 with
      | .str s => if hasSubstr "_".data kv.1.data then acc else acc ++ [s]
      | _ => acc)
    []

/-- Capability collection over a sub-system's `inputs` items
(claude_client.py 100-107): for each input value, if `"attributes"` is
`in` it, index it out and, when it is a dict, take its `attrCaps`. -/
def collectCapabilities : List (String × Json) → Except PyError (List String)
  | [] => .ok []
  | (_, inputData) :: rest => do
    let hasAttrs ← pyContains inputData "attributes"
    let here ←
      if hasAttrs then do
        let attrs ← pyIndex inputData "attributes"
        match attrs with
        | .obj kvs => pure (attrCaps kvs)
        | _ => pure []
      else
        pure []
    let tail ← collectCapabilities rest
    return here ++ tail

/-- The capabilities line (claude_client.py 108-109): emitted only when
the collected list is truthy, joining the first five entries. -/
def capsSegment (caps : List String) : String :=
  if caps.isEmpty then ""
  else "- **Capabilities**: " ++ String.intercalate ", " (caps.take 5) ++ "\n"

/-- Sub-system heading and description lines (claude_client.py 95-96). -/
def subSystemHead (subId : String) (subSystem : Json) : Except PyError String := do
  let name ← pyGet subSystem "system_name" (.str subId)
  let desc ← pyGet subSystem "description" (.str "No description")
  return "\n#### " ++ pyStr name ++ "\n- **Description**: " ++ pyStr desc ++ "\n"

/-- One sub-system's text (claude_client.py 94-109). -/
def renderSubSystem (subId : String) (subSystem : Json) : Except PyError String := do
  let head ← subSystemHead subId subSystem
  let hasInputs ← pyContains subSystem "inputs"
  if hasInputs then do
    let inputsVal ← pyIndex subSystem "inputs"
    let inputs ← pyItems inputsVal
    let caps ← collectCapabilities inputs
    return head ++ capsSegment caps
  else
    return head

/-- All sub-systems in order. -/
def renderSubSystems : List (String × Json) → Except PyError String
  | [] => .ok ""
  | (sid, ss) :: rest => do
    let here ← renderSubSystem sid ss
    let tail ← renderSubSystems rest
    return here ++ tail

/-- The Complex branch (claude_client.py 88-109): heading from
`main_system` and `integration_score`, then the sub-systems of
`sub_systems` (default empty dict). -/
def renderComplexTool (tool : Json) : Except PyError String := do
  let mainSystem ← pyGet tool "main_system" (.str "Unknown Tool")
  let score ← pyGet tool "integration_score" (.str "N/A")
  let subsVal ← pyGet tool "sub_systems" (.obj [])
  let subs ← pyItems subsVal
  let body ← renderSubSystems subs
  return "\n### " ++ pyStr mainSystem ++ "\n- **Integration Score**: "
    ++ pyStr score ++ "/10\n" ++ body

/-- The four fixed lines of the Simple branch for a dict tool
(claude_client.py 112-115): heading from `display_name` falling back to
`tool_id`, then id, `category` and `integration_status` defaulting to
`"Unknown"`. -/
def simpleHead (kvs : List (String × Json)) : String :=
  let tid := (Json.lookup kvs "tool_id").getD .null
  let dname := (Json.lookup kvs "display_name").getD tid
  "\n### " ++ pyStr dname ++ "\n- **ID**: `" ++ pyStr tid
    ++ "`\n- **Category**: " ++ pyStr ((Json.lookup kvs "category").getD (.str "Unknown"))
    ++ "\n- **Integration**: " ++ pyStr ((Json.lookup kvs "integration_status").getD (.str "Unknown"))
    ++ "\n"

/-- The use-case lines of the Simple branch (claude_client.py 119-122):
for each input, its truthy `use_cases` comma-joined. -/
def useCasesText : List (String × Json) → Except PyError String
  | [] => .ok ""
  | (_, inputData) :: rest => do
    let uc ← pyGet inputData "use_cases" (.arr [])
    let here ←
      if pyTruthy uc then do
        let joined ← pyJoin ", " uc
        pure ("  - " ++ joined ++ "\n")
      else
        pure ""
    let tail ← useCasesText rest
    return here ++ tail

/-- The Simple branch (claude_client.py 110-122). -/
def renderSimpleTool (tool : Json) : Except PyError String := do
  let tid ← pyGet tool "tool_id" .null
  let dname ← pyGet tool "display_name" tid
  let cat ← pyGet tool "category" (.str "Unknown")
  let integ ← pyGet tool "integration_status" (.str "Unknown")
  let head := "\n### " ++ pyStr dname ++ "\n- **ID**: `" ++ pyStr tid
    ++ "`\n- **Category**: " ++ pyStr cat ++ "\n- **Integration**: " ++ pyStr integ ++ "\n"
  let hasInputs ← pyContains tool "inputs"
  if hasInputs then do
    let inputsVal ← pyGet tool "inputs" (.obj [])
    let inputs ← pyItems inputsVal
    let uc ← useCasesText inputs
    return head ++ "- **What you can get from it**:\n" ++ uc
  else
    return head

/-- One tool's text plus the trailing blank line (claude_client.py 85-124):
dispatch on `'sub_systems' in tool`. -/
def renderTool (tool : Json) : Except PyError String := do
  let isComplex ← pyContains tool "sub_systems"
  let body ← if isComplex then renderComplexTool tool else renderSimpleTool tool
  return body ++ "\n"

/-- The whole `tool_text` accumulation loop (claude_client.py 84-124). -/
def renderToolText : List Json → Except PyError String
  | [] => .ok ""
  | tool :: rest => do
    let here ← renderTool tool
    let tail ← renderToolText rest
    return here ++ tail

/-! ## Prompt Composer (`_build_user_prompt`, claude_client.py 126-154)

The template machinery models Python `str.format` on an explicitly
delimited fragment: literal characters, doubled braces as escapes, and
plain named replacement fields `\x7bname\x7d` — no `!conversion`, no
`:format_spec`, no attribute/index access in the field name, and no
positional or auto-numbered fields.  `tokenizeT` returns `none` for any
template outside this fragment (as well as for genuinely malformed
templates such as an unterminated field), and every theorem about
template behaviour below carries a `tokenizeT … = some …` hypothesis, so
no theorem asserts anything about templates the model does not cover.
On the covered fragment the model agrees with CPython exactly: fields
are substituted left to right, and the first field whose name is not
among the keyword arguments raises KeyError with that name (field lookup
in CPython precedes any conversion or format-spec processing). -/

/-- A template piece: a literal character or a plain named field. -/
inductive Seg where
  | lit (c : Char) : Seg
  | field (name : String) : Seg

/-- Scan a replacement field's name up to the closing brace.  `none` when
the brace is missing (a CPython parse ValueError), and also when the
field uses syntax outside the modelled fragment — a conversion (`!`), a
format spec (`:`), attribute or index access (`.`, `[`, `]`), or a
nested field (`\x7b`): such templates are outside the model's domain, not
claimed to fail or succeed. -/
def splitField : List Char → Option (String × List Char)
  | [] => none
  | c :: rest =>
    if c = '\x7d' then some ("", rest)
    else if c = '\x7b' ∨ c = '!' ∨ c = ':' ∨ c = '.' ∨ c = '[' ∨ c = ']' then none
    else (splitField rest).map (fun p => (c.toString ++ p.1, p.2))

/-- Fuel-driven tokenizer for a template (fuel at least the character count
guarantees completion); structural in the fuel so concrete templates
evaluate by `rfl`.  Empty or all-digit field names (CPython's positional
and auto-numbered fields, whose lookup failure is IndexError rather than
KeyError) are likewise outside the modelled fragment and yield `none`. -/
def tokenizeF : ℕ → List Char → Option (List Seg)
  | 0, _ => none
  | _ + 1, [] => some []
  | fuel + 1, c :: rest =>
    if c = '\x7b' then
      match rest with
      | r :: rest' =>
        if r = '\x7b' then (tokenizeF fuel rest').map (Seg.lit '\x7b' :: ·)
        else
          match splitField rest with
          | some (name, rest'') =>
            if name.data.all Char.isDigit then none
            else (tokenizeF fuel rest'').map (Seg.field name :: ·)
          | none => none
      | [] => none
    else if c = '\x7d' then
      match rest with
      | r :: rest' =>
        if r = '\x7d' then (tokenizeF fuel rest').map (Seg.lit '\x7d' :: ·)
        else none
      | [] => none
    else
      (tokenizeF fuel rest).map (Seg.lit c :: ·)

/-- Tokenization of a template string with adequate fuel; `some` exactly
on the modelled fragment. -/
def tokenizeT (t : String) : Option (List Seg) :=
  tokenizeF (t.data.length + 1) t.data

/-- Substitute an environment into tokenized segments; a field whose name
the environment lacks is a KeyError (CPython `str.format`). -/
def substSegs (env : String → Option String) : List Seg → Except PyError String
  | [] => .ok ""
  | .lit c :: rest => (substSegs env rest).map (c.toString ++ ·)
  | .field n :: rest =>
    match env n with
    | some v => (substSegs env rest).map (v ++ ·)
    | none => .error (.keyError n)

/-- The model of `template.format(problem=..., tools=...)`: substitution
over the tokenized template.  A template the tokenizer rejects — whether
genuinely malformed or merely outside the plain-named-field fragment the
model covers — is mapped to `.error .valueError` so that the function is
total; theorems about template behaviour only ever use `pyFormat` under a
`tokenizeT … = some …` hypothesis, inside which it coincides with
CPython's `str.format`. -/
def pyFormat (env : String → Option String) (t : String) : Except PyError String :=
  match tokenizeT t with
  | some segs => substSegs env segs
  | none => .error .valueError

/-- The keyword arguments of the format call (claude_client.py 129-132). -/
def composerEnv (problem toolText : String) : String → Option String :=
  fun n => if n = "problem" then some problem
    else if n = "tools" then some toolText
    else none

/-- The default user prompt f-string (claude_client.py 135-154). -/
def defaultUserPrompt (problem toolText : String) : String :=
  "\nProblem to Solve:\n" ++ problem
    ++ "\n\nAvailable Tools and Their Capabilities:\n" ++ toolText
    ++ "\n\nYour Task:\nGenerate exactly 5 distinct solution approaches that address this problem.\nEach solution should be formatted as specified in your system instructions.\n\nRemember:\n- Be specific about HOW to use each tool (screenshots, exports, manual steps)\n- Don\x27t assume integrations that don\x27t exist\n- Make it feel like advice from a helpful friend\n- Each prompt should be immediately usable by copying to an LLM\n- Include tools when they genuinely enhance the solution\n- Some solutions may use 2-3 tools, others may use none\n- Pure AI solutions are perfectly acceptable when appropriate\n"

/-- The template dispatch (claude_client.py 126-154): `if
user_prompt_template:` is a truthiness test, so `none` and the empty
string both select the default prompt. -/
def composeFromText (problem toolText : String) (template : Option String) :
    Except PyError String :=
  match template with
  | some t =>
    if t = "" then .ok (defaultUserPrompt problem toolText)
    else pyFormat (composerEnv problem toolText) t
  | none => .ok (defaultUserPrompt problem toolText)

/-- `_build_user_prompt` (claude_client.py 80-154): render the tool text,
then compose. -/
def build_user_prompt (problem : String) (tools : List Json)
    (template : Option String) : Except PyError String := do
  let toolText ← renderToolText tools
  composeFromText problem toolText template

/-! ## Response Parser (`_parse_response`, claude_client.py 156-182) -/

/-- The fallback Solution built on JSON decode failure
(claude_client.py 177-182). -/
def fallbackSolution (rawText : String) (toolIds : List Json) : Json :=
  .obj [("title", .str "Raw Response (JSON Parse Failed)"),
        ("prompt", .str rawText),
        ("tools_used", .arr toolIds),
        ("tags", .arr [.str "parse_error"])]

/-- `if key not in solution: solution[key] = default` for a dict item:
append the default at the end when the key is absent (Python dicts append
new keys in insertion order). -/
def backfillOne (kvs : List (String × Json)) (key : String) (dflt : Json) :
    List (String × Json) :=
  if (Json.lookup kvs key).isSome then kvs else kvs ++ [(key, dflt)]

/-- The four backfills of the validation loop, in source order
(claude_client.py 164-172). -/
def backfillSolution (kvs : List (String × Json)) : List (String × Json) :=
  backfillOne
    (backfillOne
      (backfillOne
        (backfillOne kvs "title" (.str "Untitled Solution"))
        "prompt" (.str "No prompt generated"))
      "tools_used" (.arr []))
    "tags" (.arr [])

/-- All four Solution keys present, under Python `in` semantics for the
given container (substring test for strings, membership for lists). -/
def hasAllSolutionKeys (j : Json) : Bool :=
  match pyContains j "title", pyContains j "prompt",
      pyContains j "tools_used", pyContains j "tags" with
  | .ok a, .ok b, .ok c, .ok d => a && b && c && d
  | _, _, _, _ => false

/-- One iteration of the validation loop on an arbitrary item: dict items
get missing keys backfilled; a string or list item survives unchanged only
when Python `in` finds all four keys in it (otherwise the first
`solution[key] = default` on it raises TypeError); any other item raises
TypeError at the first `key not in solution` test. -/
def validateItem (j : Json) : Except PyError Json :=
  match j with
  | .obj kvs => .ok (.obj (backfillSolution kvs))
  | .str s => if hasAllSolutionKeys (.str s) then .ok (.str s) else .error .typeError
  | .arr xs => if hasAllSolutionKeys (.arr xs) then .ok (.arr xs) else .error .typeError
  | _ => .error .typeError

/-- `_parse_response` (claude_client.py 156-182).  The decode outcome of
`json.loads(response_text)` is passed in explicitly: `.error` is a
JSONDecodeError (caught, producing the fallback); `.ok` is the decoded
document, on which `parsed.get('solutions', [])` and the `for solution in
solutions` loop run with Python semantics (AttributeError on a non-dict
document, TypeError on a non-iterable `solutions` value, per-item
validation as in `validateItem`; iterating a dict yields its keys and a
string its characters, which pass only in the degenerate all-keys cases). -/
def parse_response (decoded : Except Unit Json) (rawText : String)
    (toolIds : List Json) : Except PyError Json :=
  match decoded with
  | .error _ => .ok (.arr [fallbackSolution rawText toolIds])
  | .ok parsed => do
    let solutions ← pyGet parsed "solutions" (.arr [])
    match solutions with
    | .arr xs => do
      let validated ← xs.mapM validateItem
      return .arr validated
    | .str s =>
      if (s.data.map (fun c => Json.str c.toString)).all
          (fun item => hasAllSolutionKeys item) then .ok (.str s)
      else .error .typeError
    | .obj kvs =>
      if (kvs.map (fun kv => Json.str kv.1)).all
          (fun item => hasAllSolutionKeys item) then .ok (.obj kvs)
      else .error .typeError
    | _ => .error .typeError

/-! ## Cost Calculator (generate, claude_client.py 62-65) -/

/-- The cost formula: per-million prices applied to token counts. -/
def cost (input_tokens output_tokens input_price output_price : ℚ) : ℚ :=
  input_tokens / 1000000 * input_price + output_tokens / 1000000 * output_price

/-! ## Request Orchestrator (`generate`, claude_client.py 25-78) -/

/-- The external model response: raw text, its `json.loads` outcome (the
stdlib decode applied to that text, supplied as part of the oracle), and
the usage counters. -/
structure ApiResponse where
  text : String
  decodedText : Except Unit Json
  input_tokens : ℤ
  output_tokens : ℤ

/-- The metadata block of a generation (claude_client.py 69-77). -/
structure Metadata where
  tokens : ℤ
  input_tokens : ℤ
  output_tokens : ℤ
  cost_usd : ℚ
  latency_ms : ℚ
  model : String
  temperature : ℚ

/-- The value returned by `generate` (claude_client.py 67-78). -/
structure GenerationResult where
  solutions : Json
  metadata : Metadata

/-- How a `generate` call can fail: a propagated Python exception
(template KeyError, renderer or parser error, missing `tool_id`), or the
wrapped API failure raised at claude_client.py 53-54. -/
inductive GenError where
  | py (e : PyError) : GenError
  | upstream (msg : String) : GenError

/-- Outcome of one orchestration, recording whether the external call was
reached. -/
structure GenTrace where
  result : Except GenError GenerationResult
  networkCalled : Bool

/-- `tool_ids = [t['tool_id'] for t in tools]` (claude_client.py 59):
KeyError on a dict tool without the key, TypeError on a non-dict tool. -/
def extractToolIds : List Json → Except PyError (List Json)
  | [] => .ok []
  | t :: rest => do
    let v ← pyIndex t "tool_id"
    let vs ← extractToolIds rest
    return v :: vs

/-- `generate` (claude_client.py 25-78): build the user prompt (any
failure there propagates before the network call), invoke the external
model (failure is wrapped as an upstream error), extract the fallback
tool ids, parse the response, and assemble the result with its cost.
The wall-clock latency is an oracle argument; the system prompt is
forwarded to the external call only. -/
def generate (problem : String) (tools : List Json) (_system_prompt : String)
    (template : Option String) (temperature : ℚ)
    (response : Except String ApiResponse) (latency : ℚ) : GenTrace :=
  match build_user_prompt problem tools template with
  | .error e => ⟨.error (.py e), false⟩
  | .ok _userPrompt =>
    match response with
    | .error msg => ⟨.error (.upstream ("Claude API error: " ++ msg)), true⟩
    | .ok resp =>
      match extractToolIds tools with
      | .error e => ⟨.error (.py e), true⟩
      | .ok toolIds =>
        match parse_response resp.decodedText resp.text toolIds with
        | .error e => ⟨.error (.py e), true⟩
        | .ok sols =>
          ⟨.ok { solutions := sols,
                 metadata :=
                   { tokens := resp.input_tokens + resp.output_tokens,
                     input_tokens := resp.input_tokens,
                     output_tokens := resp.output_tokens,
                     cost_usd := cost (resp.input_tokens : ℚ) (resp.output_tokens : ℚ)
                       CLAUDE_INPUT_PRICE CLAUDE_OUTPUT_PRICE,
                     latency_ms := latency,
                     model := CLAUDE_MODEL,
                     temperature := temperature } },
           true⟩

/-! ## CostTracker (src/services/cost_tracker.py) -/

/-- The session accumulator state. -/
structure CostTracker where
  total_tokens : ℤ
  total_cost : ℚ
  test_count : ℤ

/-- `__init__` (cost_tracker.py 4-7). -/
def CostTracker.init : CostTracker :=
  { total_tokens := 0, total_cost := 0, test_count := 0 }

/-- `add_test` (cost_tracker.py 9-13). -/
def CostTracker.add_test (s : CostTracker) (tokens : ℤ) (c : ℚ) : CostTracker :=
  { total_tokens := s.total_tokens + tokens,
    total_cost := s.total_cost + c,
    test_count := s.test_count + 1 }

/-- `reset` (cost_tracker.py 24-28). -/
def CostTracker.reset (_ : CostTracker) : CostTracker :=
  { total_tokens := 0, total_cost := 0, test_count := 0 }

/-! ## Catalog loading (`load_problems`, file_manager.py 10-27)

A catalog directory is a list of per-file load outcomes: `.error` when
opening or decoding the file raised (the except branch logs and skips),
`.ok` the decoded document otherwise. -/

/-- The accumulation loop of `load_problems`: arrays extend, anything else
appends, failures are skipped. -/
def load_problems (files : List (Except Unit Json)) : List Json :=
  files.foldl
    (fun acc f =>
      match f with
      | .error _ => acc
      | .ok (.arr xs) => acc ++ xs
      | .ok d => acc ++ [d])
    []

/-! ## Statement-side descriptions -/

/-- What the spec says the parser does to one decoded solution item:
mapping items get the four defaults backfilled; stated for comparison with
the validation loop. -/
def backfillItem (j : Json) : Json :=
  match j with
  | .obj fields => .obj (backfillSolution fields)
  | other => other

/-- Declarative form of the inner attribute filter. -/
def stringAttrCaps (attrs : List (String × Json)) : List String :=
  attrs.filterMap
    (fun kv =>
      match kv.2 with
      | .str s => if hasSubstr "_".data kv.1.data then none else some s
      | _ => none)

/-- The spec's description of the capability collection ("string-valued
leaf values in each input's `attributes` mapping whose key does not
contain an underscore"), as a declarative filter. -/
def specCapabilities (inputs : List (String × Json)) : List String :=
  inputs.foldr
    (fun p acc =>
      (match p.2 with
        | .obj kvs =>
          match Json.lookup kvs "attributes" with
          | some (.obj attrs) => stringAttrCaps attrs
          | _ => []
        | _ => []) ++ acc)
    []

/-- Per-file contribution of a catalog load: an array contributes its
elements, any other document contributes itself, a failed file nothing. -/
def fileRecords : Except Unit Json → List Json
  | .error _ => []
  | .ok (.arr xs) => xs
  | .ok d => [d]

/-! ## Helper lemmas -/

theorem lookup_append_some {xs : List (String × Json)} {key : String} {v : Json}
    (h : Json.lookup xs key = some v) (ys : List (String × Json)) :
    Json.lookup (xs ++ ys) key = some v := by
  induction xs with
  | nil => simp [Json.lookup] at h
  | cons kv rest ih =>
    rw [List.cons_append]
    simp only [Json.lookup] at h ⊢
    split
    · split at h <;> simp_all
    · split at h
      · simp_all
      · exact ih h

theorem lookup_append_none {xs : List (String × Json)} {key : String}
    (h : Json.lookup xs key = none) (ys : List (String × Json)) :
    Json.lookup (xs ++ ys) key = Json.lookup ys key := by
  induction xs with
  | nil => simp
  | cons kv rest ih =>
    rw [List.cons_append]
    simp only [Json.lookup] at h ⊢
    split
    · split at h <;> simp_all
    · split at h
      · simp_all
      · exact ih h

theorem lookup_backfillOne_self (kvs : List (String × Json)) (k : String) (v : Json) :
    Json.lookup (backfillOne kvs k v) k = some ((Json.lookup kvs k).getD v) := by
  unfold backfillOne
  cases h : Json.lookup kvs k with
  | some x => simp [h]
  | none =>
    simp only [h, Option.isSome_none, Bool.false_eq_true, if_false, Option.getD_none]
    rw [lookup_append_none h]
    simp [Json.lookup]

theorem lookup_backfillOne_other (kvs : List (String × Json)) (k : String) (v : Json)
    (key : String) (hne : key ≠ k) :
    Json.lookup (backfillOne kvs k v) key = Json.lookup kvs key := by
  unfold backfillOne
  split
  · rfl
  · cases h : Json.lookup kvs key with
    | some x => exact lookup_append_some h _
    | none =>
      rw [lookup_append_none h]
      simp only [Json.lookup]
      rw [if_neg (fun h' => hne h'.symm)]

theorem bind_ok_eq {α β ε : Type} (a : α) (f : α → Except ε β) :
    (Except.ok a >>= f) = f a := rfl

theorem mapM_validate_objs (sols : List Json)
    (h : ∀ s ∈ sols, ∃ fields, s = Json.obj fields) :
    sols.mapM validateItem = .ok (sols.map backfillItem) := by
  induction sols with
  | nil => rfl
  | cons s rest ih =>
    obtain ⟨fields, hf⟩ := h s (by simp)
    subst hf
    rw [List.mapM_cons, ih (fun x hx => h x (by simp [hx]))]
    rfl

/-! ## Claim C1 -/

/-- Claim C1, counterexample: the claim also covers raw texts "whose
top-level structure is not an object", but `_parse_response` catches only
JSONDecodeError; the raw text `"[]"` decodes successfully to an empty
array, on which `parsed.get('solutions', [])` raises AttributeError — the
parser neither returns the single fallback Solution nor avoids raising. -/
theorem C1_counterexample :
    parse_response (.ok (.arr [])) "[]" [] = .error .attributeError
    ∧ parse_response (.ok (.arr [])) "[]" [] ≠ .ok (.arr [fallbackSolution "[]" []]) := by
  refine ⟨rfl, ?_⟩
  intro h
  rw [show parse_response (.ok (.arr [])) "[]" [] = .error .attributeError from rfl] at h
  exact Except.noConfusion h

/-- Claim C1, amended: for every raw text whose JSON decoding fails (a
JSONDecodeError), and every list of tool identifiers, the parser returns
exactly one Solution with the fixed title, the raw text verbatim as
prompt, the supplied tool identifiers, and tags `["parse_error"]`; a raw
text that decodes to a non-object top level instead raises. -/
theorem C1_amended (rawText : String) (toolIds : List Json) :
    parse_response (.error ()) rawText toolIds
      = .ok (.arr [.obj [("title", .str "Raw Response (JSON Parse Failed)"),
                         ("prompt", .str rawText),
                         ("tools_used", .arr toolIds),
                         ("tags", .arr [.str "parse_error"])]]) := rfl

/-- Witness for C1: the amended behaviour at the spec's own example,
raw text `"not json"` with tool ids `["x", "y"]`. -/
theorem C1_witness :
    parse_response (.error ()) "not json" [.str "x", .str "y"]
      = .ok (.arr [.obj [("title", .str "Raw Response (JSON Parse Failed)"),
                         ("prompt", .str "not json"),
                         ("tools_used", .arr [.str "x", .str "y"]),
                         ("tags", .arr [.str "parse_error"])]]) :=
  C1_amended "not json" [.str "x", .str "y"]

/-! ## Claim C2 -/

/-- Claim C2: for a raw text decoding to an object whose `solutions` value
is an array of objects, the parser returns that array in order (one output
item per input item), each item backfilled: the four Solution keys come
back as their original values when present and as the documented defaults
when absent, and every other key is preserved unchanged. -/
theorem C2_parse_success (rawText : String) (toolIds : List Json)
    (kvs : List (String × Json)) (sols : List Json)
    (hsol : Json.lookup kvs "solutions" = some (.arr sols))
    (hobj : ∀ s ∈ sols, ∃ fields, s = Json.obj fields) :
    parse_response (.ok (.obj kvs)) rawText toolIds = .ok (.arr (sols.map backfillItem))
    ∧ (sols.map backfillItem).length = sols.length
    ∧ (∀ fields, Json.lookup (backfillSolution fields) "title"
        = some ((Json.lookup fields "title").getD (.str "Untitled Solution")))
    ∧ (∀ fields, Json.lookup (backfillSolution fields) "prompt"
        = some ((Json.lookup fields "prompt").getD (.str "No prompt generated")))
    ∧ (∀ fields, Json.lookup (backfillSolution fields) "tools_used"
        = some ((Json.lookup fields "tools_used").getD (.arr [])))
    ∧ (∀ fields, Json.lookup (backfillSolution fields) "tags"
        = some ((Json.lookup fields "tags").getD (.arr [])))
    ∧ (∀ fields key, key ≠ "title" → key ≠ "prompt" → key ≠ "tools_used" → key ≠ "tags" →
        Json.lookup (backfillSolution fields) key = Json.lookup fields key) := by
  refine ⟨?_, by simp, ?_, ?_, ?_, ?_, ?_⟩
  · have hget : pyGet (Json.obj kvs) "solutions" (Json.arr []) = .ok (.arr sols) := by
      simp [pyGet, hsol]
    simp only [parse_response, hget, bind_ok_eq, mapM_validate_objs sols hobj]
    rfl
  · intro fields
    unfold backfillSolution
    rw [lookup_backfillOne_other _ _ _ _ (by decide),
        lookup_backfillOne_other _ _ _ _ (by decide),
        lookup_backfillOne_other _ _ _ _ (by decide),
        lookup_backfillOne_self]
  · intro fields
    unfold backfillSolution
    rw [lookup_backfillOne_other _ _ _ _ (by decide),
        lookup_backfillOne_other _ _ _ _ (by decide),
        lookup_backfillOne_self,
        lookup_backfillOne_other _ _ _ _ (by decide)]
  · intro fields
    unfold backfillSolution
    rw [lookup_backfillOne_other _ _ _ _ (by decide),
        lookup_backfillOne_self,
        lookup_backfillOne_other _ _ _ _ (by decide),
        lookup_backfillOne_other _ _ _ _ (by decide)]
  · intro fields
    unfold backfillSolution
    rw [lookup_backfillOne_self,
        lookup_backfillOne_other _ _ _ _ (by decide),
        lookup_backfillOne_other _ _ _ _ (by decide),
        lookup_backfillOne_other _ _ _ _ (by decide)]
  · intro fields key h1 h2 h3 h4
    unfold backfillSolution
    rw [lookup_backfillOne_other _ _ _ _ h4,
        lookup_backfillOne_other _ _ _ _ h3,
        lookup_backfillOne_other _ _ _ _ h2,
        lookup_backfillOne_other _ _ _ _ h1]

/-- Witness for C2: the spec's test case, raw text
`'{"solutions":[{"title":"A"}]}'`, yields one Solution with `title="A"`
and the three defaults appended. -/
theorem C2_witness :
    parse_response (.ok (.obj [("solutions", .arr [.obj [("title", .str "A")]])])) "r" []
      = .ok (.arr [.obj [("title", .str "A"),
                         ("prompt", .str "No prompt generated"),
                         ("tools_used", .arr []),
                         ("tags", .arr [])]]) := by
  have h := C2_parse_success "r" [] [("solutions", .arr [.obj [("title", .str "A")]])]
    [.obj [("title", .str "A")]] rfl
    (by intro s hs; simp at hs; exact ⟨[("title", .str "A")], hs⟩)
  exact h.1.trans rfl

/-! ## Claim C5 -/

/-- Claim C5: the cost of a generation is
`(input_tokens/1e6)*INPUT_PRICE + (output_tokens/1e6)*OUTPUT_PRICE` with
prices 3.0 and 15.0 per million; in particular `cost(1_000_000, 0)=3.0`,
`cost(0, 1_000_000)=15.0`, `cost(0,0)=0.0`, and the cost is non-negative
for non-negative token counts.  (Python float arithmetic is modelled in
ℚ; every concrete value here is exactly representable and exactly
computed in binary floating point as well.) -/
theorem C5_cost (it ot : ℚ) (hit : 0 ≤ it) (hot : 0 ≤ ot) :
    CLAUDE_INPUT_PRICE = 3
    ∧ CLAUDE_OUTPUT_PRICE = 15
    ∧ cost 1000000 0 3 15 = 3
    ∧ cost 0 1000000 3 15 = 15
    ∧ (∀ ip op, cost 0 0 ip op = 0)
    ∧ 0 ≤ cost it ot CLAUDE_INPUT_PRICE CLAUDE_OUTPUT_PRICE
    ∧ (∀ p tools sp tmpl temp resp lat r,
        (generate p tools sp tmpl temp (.ok resp) lat).result = .ok r →
        r.metadata.cost_usd
          = (resp.input_tokens : ℚ) / 1000000 * CLAUDE_INPUT_PRICE
            + (resp.output_tokens : ℚ) / 1000000 * CLAUDE_OUTPUT_PRICE) := by
  refine ⟨rfl, rfl, by norm_num [cost], by norm_num [cost], fun ip op => by norm_num [cost],
    ?_, ?_⟩
  · have h1 : 0 ≤ it / 1000000 * CLAUDE_INPUT_PRICE := by
      apply mul_nonneg (div_nonneg hit (by norm_num))
      norm_num [CLAUDE_INPUT_PRICE]
    have h2 : 0 ≤ ot / 1000000 * CLAUDE_OUTPUT_PRICE := by
      apply mul_nonneg (div_nonneg hot (by norm_num))
      norm_num [CLAUDE_OUTPUT_PRICE]
    unfold cost
    linarith
  · intro p tools sp tmpl temp resp lat r h
    cases hb : build_user_prompt p tools tmpl with
    | error e => simp [generate, hb] at h
    | ok up =>
      cases he : extractToolIds tools with
      | error e => simp [generate, hb, he] at h
      | ok ids =>
        cases hp : parse_response resp.decodedText resp.text ids with
        | error e => simp [generate, hb, he, hp] at h
        | ok sols =>
          simp only [generate, hb, he, hp] at h
          cases h
          rfl

/-- Witness for C5 at concrete values: tokens `(2, 4)` are non-negative and
a concrete successful generation (empty tool list, default template,
non-JSON model output) carries exactly the formula's cost. -/
theorem C5_witness :
    cost 1000000 0 3 15 = 3
    ∧ 0 ≤ cost 2 4 CLAUDE_INPUT_PRICE CLAUDE_OUTPUT_PRICE
    ∧ (generate "p" [] "sys" none (4/5)
          (.ok ⟨"x", .error (), 1000000, 0⟩) 100).result
        = .ok ⟨.arr [fallbackSolution "x" []],
            ⟨1000000, 1000000, 0, cost 1000000 0 CLAUDE_INPUT_PRICE CLAUDE_OUTPUT_PRICE,
              100, CLAUDE_MODEL, 4/5⟩⟩
    ∧ cost 1000000 0 CLAUDE_INPUT_PRICE CLAUDE_OUTPUT_PRICE
        = (1000000 : ℚ) / 1000000 * CLAUDE_INPUT_PRICE
          + (0 : ℚ) / 1000000 * CLAUDE_OUTPUT_PRICE := by
  have h := C5_cost 2 4 (by norm_num) (by norm_num)
  refine ⟨h.2.2.1, h.2.2.2.2.2.1, rfl, ?_⟩
  exact h.2.2.2.2.2.2 "p" [] "sys" none (4/5) ⟨"x", .error (), 1000000, 0⟩ 100 _ rfl

/-! ## Claim C6 -/

/-- Claim C6: the CostTracker starts at `(0, 0.0, 0)`; `add_test` adds the
token and cost arguments and increments the count (so the spec's two-step
example reaches `(150, 0.75, 2)`); `reset` restores the initial state; and
with non-negative arguments and a component-wise non-negative state the
totals stay non-negative and never decrease across an `add_test`. -/
theorem C6_cost_tracker (s : CostTracker) (tokens : ℤ) (c : ℚ)
    (htok : 0 ≤ tokens) (hc : 0 ≤ c) :
    (CostTracker.init.total_tokens = 0 ∧ CostTracker.init.total_cost = 0
      ∧ CostTracker.init.test_count = 0)
    ∧ ((CostTracker.init.add_test 100 (1/2)).add_test 50 (1/4)).total_tokens = 150
    ∧ ((CostTracker.init.add_test 100 (1/2)).add_test 50 (1/4)).total_cost = 3/4
    ∧ ((CostTracker.init.add_test 100 (1/2)).add_test 50 (1/4)).test_count = 2
    ∧ (∀ s' : CostTracker, s'.reset = CostTracker.init)
    ∧ ((s.add_test tokens c).total_tokens = s.total_tokens + tokens
        ∧ (s.add_test tokens c).total_cost = s.total_cost + c
        ∧ (s.add_test tokens c).test_count = s.test_count + 1)
    ∧ (s.total_tokens ≤ (s.add_test tokens c).total_tokens
        ∧ s.total_cost ≤ (s.add_test tokens c).total_cost
        ∧ s.test_count < (s.add_test tokens c).test_count)
    ∧ (0 ≤ s.total_tokens → 0 ≤ s.total_cost →
        0 ≤ (s.add_test tokens c).total_tokens ∧ 0 ≤ (s.add_test tokens c).total_cost) := by
  refine ⟨⟨rfl, rfl, rfl⟩, by norm_num [CostTracker.add_test, CostTracker.init],
    by norm_num [CostTracker.add_test, CostTracker.init],
    by norm_num [CostTracker.add_test, CostTracker.init],
    fun s' => rfl, ⟨rfl, rfl, rfl⟩, ?_, ?_⟩
  · exact ⟨by simp [CostTracker.add_test, htok], by simp [CostTracker.add_test, hc],
      by simp [CostTracker.add_test]⟩
  · intro h1 h2
    constructor
    · simp only [CostTracker.add_test]
      linarith
    · simp only [CostTracker.add_test]
      linarith

/-- Witness for C6 at the spec's example: starting from the initial state,
`add_test(100, 0.5)` then `add_test(50, 0.25)` gives totals
`(150, 0.75, 2)`, and that state's reset is the initial state. -/
theorem C6_witness :
    ((CostTracker.init.add_test 100 (1/2)).add_test 50 (1/4)).total_tokens = 150
    ∧ ((CostTracker.init.add_test 100 (1/2)).add_test 50 (1/4)).total_cost = 3/4
    ∧ ((CostTracker.init.add_test 100 (1/2)).add_test 50 (1/4)).test_count = 2
    ∧ ((CostTracker.init.add_test 100 (1/2)).add_test 50 (1/4)).reset = CostTracker.init := by
  have h := C6_cost_tracker CostTracker.init 100 (1/2) (by norm_num) (by norm_num)
  exact ⟨h.2.1, h.2.2.1, h.2.2.2.1, h.2.2.2.2.1 _⟩

/-! ## Claim C7 -/

theorem load_problems_flat (files : List (Except Unit Json)) :
    load_problems files = files.foldr (fun f acc => fileRecords f ++ acc) [] := by
  have key : ∀ (fs : List (Except Unit Json)) (acc : List Json),
      fs.foldl
        (fun acc f =>
          match f with
          | .error _ => acc
          | .ok (.arr xs) => acc ++ xs
          | .ok d => acc ++ [d])
        acc = acc ++ fs.foldr (fun f acc => fileRecords f ++ acc) [] := by
    intro fs
    induction fs with
    | nil => intro acc; simp
    | cons f rest ih =>
      intro acc
      rw [List.foldl_cons, List.foldr_cons, ih]
      cases f with
      | error e => simp [fileRecords]
      | ok d => cases d <;> simp [fileRecords]
  rw [load_problems, key]
  rfl

theorem foldr_records_init (fs : List (Except Unit Json)) (init : List Json) :
    fs.foldr (fun f acc => fileRecords f ++ acc) init
      = fs.foldr (fun f acc => fileRecords f ++ acc) [] ++ init := by
  induction fs with
  | nil => simp
  | cons f rest ih => simp [ih]

/-- Claim C7: catalog loading is per-file fault-isolated and
shape-tolerant — a file decoding to a single object contributes that one
record, a file decoding to an array contributes all its elements, a
failing file anywhere in the directory is skipped without affecting the
rest, and the spec's example (one single-object file plus one
two-element-array file) yields exactly three records. -/
theorem C7_load_problems (fs gs : List (Except Unit Json))
    (kvs : List (String × Json)) (xs : List Json) :
    load_problems (fs ++ [.ok (.obj kvs)]) = load_problems fs ++ [.obj kvs]
    ∧ load_problems (fs ++ [.ok (.arr xs)]) = load_problems fs ++ xs
    ∧ load_problems (fs ++ .error () :: gs) = load_problems (fs ++ gs)
    ∧ load_problems [.ok (.obj [("problem_id", .str "p1")]),
          .ok (.arr [.obj [("problem_id", .str "p2")], .obj [("problem_id", .str "p3")]])]
        = [.obj [("problem_id", .str "p1")], .obj [("problem_id", .str "p2")],
           .obj [("problem_id", .str "p3")]] := by
  refine ⟨?_, ?_, ?_, rfl⟩
  · rw [load_problems_flat, load_problems_flat fs, List.foldr_append, foldr_records_init]
    simp [fileRecords]
  · rw [load_problems_flat, load_problems_flat fs, List.foldr_append, foldr_records_init]
    simp [fileRecords]
  · rw [load_problems_flat, load_problems_flat (fs ++ gs), List.foldr_append,
      List.foldr_append, List.foldr_cons]
    simp [fileRecords]

/-- Witness for C7 at concrete directories: appending a failing file
between a single-object file and an array file changes nothing, and the
three-record example evaluates as stated. -/
theorem C7_witness :
    load_problems ([.ok (.obj [("problem_id", .str "p1")])] ++ .error ()
        :: [.ok (.arr [.obj [("problem_id", .str "p2")], .obj [("problem_id", .str "p3")]])])
      = load_problems ([.ok (.obj [("problem_id", .str "p1")])]
          ++ [.ok (.arr [.obj [("problem_id", .str "p2")], .obj [("problem_id", .str "p3")]])])
    ∧ load_problems [.ok (.obj [("problem_id", .str "p1")]),
          .ok (.arr [.obj [("problem_id", .str "p2")], .obj [("problem_id", .str "p3")]])]
        = [.obj [("problem_id", .str "p1")], .obj [("problem_id", .str "p2")],
           .obj [("problem_id", .str "p3")]] := by
  have h := C7_load_problems [.ok (.obj [("problem_id", .str "p1")])]
    [.ok (.arr [.obj [("problem_id", .str "p2")], .obj [("problem_id", .str "p3")]])]
    [] []
  exact ⟨h.2.2.1, h.2.2.2⟩

/-! ## Composer lemmas -/

@[simp] theorem except_map_ok {α β ε : Type} (f : α → β) (a : α) :
    Except.map f (Except.ok a : Except ε α) = .ok (f a) := rfl

@[simp] theorem except_map_error {α β ε : Type} (f : α → β) (e : ε) :
    Except.map f (Except.error e : Except ε α) = .error e := rfl

theorem tokenizeF_nobrace (fuel : ℕ) :
    ∀ cs : List Char, cs.length < fuel →
      (∀ c ∈ cs, c ≠ '\x7b' ∧ c ≠ '\x7d') →
      tokenizeF fuel cs = some (cs.map Seg.lit) := by
  induction fuel with
  | zero => intro cs h; omega
  | succ fuel ih =>
    intro cs hlen hb
    cases cs with
    | nil => rfl
    | cons c rest =>
      have hc := hb c (by simp)
      simp only [tokenizeF, if_neg hc.1, if_neg hc.2]
      rw [ih rest (by simp at hlen; omega) (fun x hx => hb x (by simp [hx]))]
      rfl

theorem substSegs_lits (env : String → Option String) (cs : List Char) :
    substSegs env (cs.map Seg.lit) = .ok (String.mk cs) := by
  induction cs with
  | nil => rfl
  | cons c rest ih =>
    simp only [List.map_cons, substSegs, ih]
    rfl

/-! ## Claim C3 -/

/-- Claim C9, counterexample: the empty string is a template containing no
placeholders, yet the composer returns the default prompt rather than the
template unchanged; likewise `"\x7b\x7b"` contains no placeholders but comes
back as `"\x7b"` (doubled-brace escaping), not unchanged. -/
theorem C9_counterexample :
    composeFromText "P" "T" (some "") = .ok (defaultUserPrompt "P" "T")
    ∧ composeFromText "P" "T" (some "") ≠ .ok ""
    ∧ composeFromText "P" "T" (some "\x7b\x7b") = .ok "\x7b"
    ∧ composeFromText "P" "T" (some "\x7b\x7b") ≠ .ok "\x7b\x7b" := by
  refine ⟨rfl, ?_, rfl, ?_⟩
  · intro h
    rw [show composeFromText "P" "T" (some "") = .ok (defaultUserPrompt "P" "T") from rfl] at h
    exact absurd (Except.ok.inj h) (by decide)
  · intro h
    rw [show composeFromText "P" "T" (some "\x7b\x7b") = .ok "\x7b" from rfl] at h
    exact absurd (Except.ok.inj h) (by decide)

/-- Claim C9, amended: every non-empty template containing no brace
characters (hence no placeholders and no escapes) is returned unchanged,
for all problem and tool-text values; and the round-trip
`compose("P", "T", "X:\x7bproblem\x7d Y:\x7btools\x7d")` yields `"X:P Y:T"`. -/
theorem C9_amended (p toolText t : String) (hne : t ≠ "")
    (hb : ∀ c ∈ t.data, c ≠ '\x7b' ∧ c ≠ '\x7d') :
    composeFromText p toolText (some t) = .ok t
    ∧ composeFromText "P" "T" (some "X:\x7bproblem\x7d Y:\x7btools\x7d") = .ok "X:P Y:T" := by
  refine ⟨?_, rfl⟩
  have htok : tokenizeT t = some (t.data.map Seg.lit) :=
    tokenizeF_nobrace (t.data.length + 1) t.data (by omega) hb
  have hmk : String.mk t.data = t := by cases t; rfl
  simp [composeFromText, hne, pyFormat, htok, substSegs_lits, hmk]

/-- Witness for C9: the brace-free template `"hello"` comes back unchanged
and the spec's round-trip example formats as stated. -/
theorem C9_witness :
    composeFromText "Pr" "To" (some "hello") = .ok "hello"
    ∧ composeFromText "P" "T" (some "X:\x7bproblem\x7d Y:\x7btools\x7d") = .ok "X:P Y:T" :=
  C9_amended "Pr" "To" "hello" (by decide) (by decide)

/-! ## Capability-extraction lemmas -/

theorem attrCaps_eq_stringAttrCaps (attrs : List (String × Json)) :
    attrCaps attrs = stringAttrCaps attrs := by
  have key : ∀ (l : List (String × Json)) (acc : List String),
      l.foldl
        (fun acc kv =>
          match kv.2 with
          | .str s => if hasSubstr "_".data kv.1.data then acc else acc ++ [s]
          | _ => acc)
        acc = acc ++ stringAttrCaps l := by
    intro l
    induction l with
    | nil => intro acc; simp [stringAttrCaps]
    | cons kv rest ih =>
      intro acc
      rw [List.foldl_cons]
      cases hv : kv.2 with
      | str s =>
        by_cases hu : hasSubstr "_".data kv.1.data
        · rw [ih]
          simp [stringAttrCaps, List.filterMap_cons, hv, hu]
        · rw [ih]
          simp [stringAttrCaps, List.filterMap_cons, hv, hu]
      | null => rw [ih]; simp [stringAttrCaps, List.filterMap_cons, hv]
      | bool b => rw [ih]; simp [stringAttrCaps, List.filterMap_cons, hv]
      | num q => rw [ih]; simp [stringAttrCaps, List.filterMap_cons, hv]
      | arr xs => rw [ih]; simp [stringAttrCaps, List.filterMap_cons, hv]
      | obj kvs => rw [ih]; simp [stringAttrCaps, List.filterMap_cons, hv]
  rw [attrCaps, key]
  rfl

theorem specCapabilities_cons (p : String × Json) (rest : List (String × Json)) :
    specCapabilities (p :: rest)
      = (match p.2 with
          | .obj kvs =>
            match Json.lookup kvs "attributes" with
            | some (.obj attrs) => stringAttrCaps attrs
            | _ => []
          | _ => []) ++ specCapabilities rest := rfl

theorem collect_ok_eq (inputs : List (String × Json)) :
    ∀ caps, collectCapabilities inputs = .ok caps → caps = specCapabilities inputs := by
  induction inputs with
  | nil =>
    intro caps h
    exact (Except.ok.inj h).symm
  | cons p rest ih =>
    intro caps h
    obtain ⟨name, d⟩ := p
    cases d with
    | obj kvs =>
      rw [specCapabilities_cons]
      cases hl : Json.lookup kvs "attributes" with
      | some v =>
        simp only [collectCapabilities, pyContains, pyIndex, hl, Option.isSome_some,
          if_true, bind_ok_eq] at h
        cases v with
        | obj attrs =>
          simp only [bind_ok_eq] at h
          cases hr : collectCapabilities rest with
          | error e => rw [hr] at h; exact Except.noConfusion h
          | ok tail =>
            rw [hr] at h
            simp only [bind_ok_eq] at h
            have := Except.ok.inj h
            rw [← this, ih tail hr, attrCaps_eq_stringAttrCaps]
            simp [hl]
        | null =>
          simp only [bind_ok_eq] at h
          cases hr : collectCapabilities rest with
          | error e => rw [hr] at h; exact Except.noConfusion h
          | ok tail =>
            rw [hr] at h
            simp only [bind_ok_eq] at h
            have := Except.ok.inj h
            rw [← this, ih tail hr]
            simp [hl]
        | bool b =>
          simp only [bind_ok_eq] at h
          cases hr : collectCapabilities rest with
          | error e => rw [hr] at h; exact Except.noConfusion h
          | ok tail =>
            rw [hr] at h
            simp only [bind_ok_eq] at h
            have := Except.ok.inj h
            rw [← this, ih tail hr]
            simp [hl]
        | num q =>
          simp only [bind_ok_eq] at h
          cases hr : collectCapabilities rest with
          | error e => rw [hr] at h; exact Except.noConfusion h
          | ok tail =>
            rw [hr] at h
            simp only [bind_ok_eq] at h
            have := Except.ok.inj h
            rw [← this, ih tail hr]
            simp [hl]
        | str s =>
          simp only [bind_ok_eq] at h
          cases hr : collectCapabilities rest with
          | error e => rw [hr] at h; exact Except.noConfusion h
          | ok tail =>
            rw [hr] at h
            simp only [bind_ok_eq] at h
            have := Except.ok.inj h
            rw [← this, ih tail hr]
            simp [hl]
        | arr xs =>
          simp only [bind_ok_eq] at h
          cases hr : collectCapabilities rest with
          | error e => rw [hr] at h; exact Except.noConfusion h
          | ok tail =>
            rw [hr] at h
            simp only [bind_ok_eq] at h
            have := Except.ok.inj h
            rw [← this, ih tail hr]
            simp [hl]
      | none =>
        simp only [collectCapabilities, pyContains, pyIndex, hl, Option.isSome_none,
          if_false, bind_ok_eq, Bool.false_eq_true] at h
        cases hr : collectCapabilities rest with
        | error e => rw [hr] at h; exact Except.noConfusion h
        | ok tail =>
          rw [hr] at h
          simp only [bind_ok_eq] at h
          have := Except.ok.inj h
          rw [← this, ih tail hr]
          simp [hl]
    | str s =>
      rw [specCapabilities_cons]
      by_cases hc : hasSubstr "attributes".data s.data
      · simp only [collectCapabilities, pyContains, pyIndex, hc, if_true, bind_ok_eq] at h
        exact Except.noConfusion h
      · simp only [collectCapabilities, pyContains, pyIndex, hc, if_false,
          bind_ok_eq, Bool.false_eq_true] at h
        cases hr : collectCapabilities rest with
        | error e => rw [hr] at h; exact Except.noConfusion h
        | ok tail =>
          rw [hr] at h
          simp only [bind_ok_eq] at h
          have := Except.ok.inj h
          rw [← this, ih tail hr]
    | arr xs =>
      rw [specCapabilities_cons]
      by_cases hc : xs.any (jsonEqStr · "attributes")
      · simp only [collectCapabilities, pyContains, pyIndex, hc, if_true, bind_ok_eq] at h
        exact Except.noConfusion h
      · simp only [collectCapabilities, pyContains, pyIndex, hc, if_false,
          bind_ok_eq, Bool.false_eq_true] at h
        cases hr : collectCapabilities rest with
        | error e => rw [hr] at h; exact Except.noConfusion h
        | ok tail =>
          rw [hr] at h
          simp only [bind_ok_eq] at h
          have := Except.ok.inj h
          rw [← this, ih tail hr]
    | null =>
      simp only [collectCapabilities, pyContains] at h
      exact Except.noConfusion h
    | bool b =>
      simp only [collectCapabilities, pyContains] at h
      exact Except.noConfusion h
    | num q =>
      simp only [collectCapabilities, pyContains] at h
      exact Except.noConfusion h

theorem mem_stringAttrCaps {c : String} {attrs : List (String × Json)}
    (h : c ∈ stringAttrCaps attrs) :
    ∃ key, (key, Json.str c) ∈ attrs ∧ hasSubstr "_".data key.data = false := by
  unfold stringAttrCaps at h
  rw [List.mem_filterMap] at h
  obtain ⟨kv, hkv, hf⟩ := h
  obtain ⟨k, v⟩ := kv
  cases v with
  | str s =>
    by_cases hu : hasSubstr "_".data k.data
    · simp [hu] at hf
    · simp only [hu, if_false, Bool.false_eq_true, Option.some.injEq] at hf
      subst hf
      exact ⟨k, hkv, Bool.not_eq_true _ ▸ by simpa using hu⟩
  | null => simp at hf
  | bool b => simp at hf
  | num q => simp at hf
  | arr xs => simp at hf
  | obj kvs => simp at hf

theorem mem_specCapabilities {c : String} {inputs : List (String × Json)}
    (hc : c ∈ specCapabilities inputs) :
    ∃ p ∈ inputs, ∃ kvs attrs key, p.2 = Json.obj kvs
      ∧ Json.lookup kvs "attributes" = some (.obj attrs)
      ∧ (key, Json.str c) ∈ attrs ∧ hasSubstr "_".data key.data = false := by
  induction inputs with
  | nil => simp [specCapabilities] at hc
  | cons p rest ih =>
    rw [specCapabilities_cons, List.mem_append] at hc
    rcases hc with hhead | htail
    · obtain ⟨name, d⟩ := p
      cases d with
      | obj kvs =>
        cases hl : Json.lookup kvs "attributes" with
        | some v =>
          cases v with
          | obj attrs =>
            simp only [hl] at hhead
            obtain ⟨key, hkey, hu⟩ := mem_stringAttrCaps hhead
            exact ⟨(name, .obj kvs), by simp, kvs, attrs, key, rfl, hl, hkey, hu⟩
          | null => simp [hl] at hhead
          | bool b => simp [hl] at hhead
          | num q => simp [hl] at hhead
          | str s => simp [hl] at hhead
          | arr xs => simp [hl] at hhead
        | none => simp [hl] at hhead
      | null => simp at hhead
      | bool b => simp at hhead
      | num q => simp at hhead
      | str s => simp at hhead
      | arr xs => simp at hhead
    · obtain ⟨q, hq, rest'⟩ := ih htail
      exact ⟨q, by simp [hq], rest'⟩

/-! ## Claim C4 -/

/-- Claim C4: whenever the capability collection over a Complex
descriptor's inputs completes (the renderer raises on malformed input
shapes, which the claim does not reach), the collected list is exactly the
string-valued attribute entries whose key contains no underscore, in input
order (entries with underscore keys are excluded regardless of value
type); the emitted list is the first five of them, hence at most five; and
the rendered sub-system carries the capabilities line exactly when the
collected list is non-empty. -/
theorem C4_capabilities (inputs : List (String × Json)) (caps : List String)
    (h : collectCapabilities inputs = .ok caps) :
    caps = specCapabilities inputs
    ∧ (caps.take 5).length ≤ 5
    ∧ (∀ c ∈ caps.take 5, ∃ p ∈ inputs, ∃ kvs attrs key, p.2 = Json.obj kvs
        ∧ Json.lookup kvs "attributes" = some (.obj attrs)
        ∧ (key, Json.str c) ∈ attrs ∧ hasSubstr "_".data key.data = false)
    ∧ (capsSegment caps = "" ↔ caps = [])
    ∧ (caps ≠ [] →
        capsSegment caps
          = "- **Capabilities**: " ++ String.intercalate ", " (caps.take 5) ++ "\n")
    ∧ (∀ sid ss head, subSystemHead sid ss = .ok head →
        pyContains ss "inputs" = .ok true → pyIndex ss "inputs" = .ok (.obj inputs) →
        renderSubSystem sid ss = .ok (head ++ capsSegment caps)) := by
  refine ⟨collect_ok_eq inputs caps h, ?_, ?_, ?_, ?_, ?_⟩
  · simp [List.length_take]
  · intro c hc
    have hmem : c ∈ caps := List.mem_of_mem_take hc
    rw [collect_ok_eq inputs caps h] at hmem
    exact mem_specCapabilities hmem
  · constructor
    · intro hseg
      by_contra hne
      rw [capsSegment, if_neg (by simpa using hne)] at hseg
      have := congrArg String.data hseg
      simp at this
    · intro he
      rw [he]
      rfl
  · intro hne
    rw [capsSegment, if_neg (by simpa using hne)]
  · intro sid ss head hhead hcont hidx
    simp [renderSubSystem, hhead, hcont, hidx, pyItems, h, bind_ok_eq]

/-- Witness for C4: a sub-system with one input carrying seven attribute
entries (one with an underscore key, one non-string) renders with the
first five no-underscore string values, comma-joined. -/
theorem C4_witness :
    renderSubSystem "s1" (.obj [("inputs", .obj [("i1", .obj [("attributes", .obj
        [("a", .str "c1"), ("b_x", .str "skip"), ("c", .num 3), ("d", .str "c2"),
         ("e", .str "c3"), ("f", .str "c4"), ("g", .str "c5"), ("h", .str "c6")])])])])
      = .ok ("\n#### s1\n- **Description**: No description\n"
          ++ "- **Capabilities**: c1, c2, c3, c4, c5\n") := by
  have h := C4_capabilities
    [("i1", .obj [("attributes", .obj
        [("a", .str "c1"), ("b_x", .str "skip"), ("c", .num 3), ("d", .str "c2"),
         ("e", .str "c3"), ("f", .str "c4"), ("g", .str "c5"), ("h", .str "c6")])])]
    ["c1", "c2", "c3", "c4", "c5", "c6"] rfl
  have hr := h.2.2.2.2.2 "s1"
    (.obj [("inputs", .obj [("i1", .obj [("attributes", .obj
        [("a", .str "c1"), ("b_x", .str "skip"), ("c", .num 3), ("d", .str "c2"),
         ("e", .str "c3"), ("f", .str "c4"), ("g", .str "c5"), ("h", .str "c6")])])])])
    "\n#### s1\n- **Description**: No description\n" rfl rfl rfl
  exact hr.trans rfl

/-! ## Claim C8 -/

/-- Claim C8: rendering a Simple descriptor (an object without
`sub_systems`) that has no `inputs` key never raises and produces exactly
the heading and the three id/category/integration lines — no
capabilities or use-case lines; the heading value is `display_name`
falling back to `tool_id`, and missing `category` or `integration_status`
resolve to `"Unknown"`. -/
theorem C8_simple_render (kvs : List (String × Json))
    (hsub : Json.lookup kvs "sub_systems" = none)
    (hinp : Json.lookup kvs "inputs" = none) :
    ∃ tid dname cat integ,
      tid = (Json.lookup kvs "tool_id").getD .null
      ∧ dname = (Json.lookup kvs "display_name").getD tid
      ∧ cat = (Json.lookup kvs "category").getD (.str "Unknown")
      ∧ integ = (Json.lookup kvs "integration_status").getD (.str "Unknown")
      ∧ renderTool (.obj kvs)
          = .ok ("\n### " ++ pyStr dname ++ "\n- **ID**: `" ++ pyStr tid
              ++ "`\n- **Category**: " ++ pyStr cat ++ "\n- **Integration**: "
              ++ pyStr integ ++ "\n" ++ "\n")
      ∧ (Json.lookup kvs "display_name" = none → dname = tid)
      ∧ (Json.lookup kvs "category" = none → cat = .str "Unknown")
      ∧ (Json.lookup kvs "integration_status" = none → integ = .str "Unknown") := by
  refine ⟨_, _, _, _, rfl, rfl, rfl, rfl, ?_, ?_, ?_, ?_⟩
  · simp [renderTool, renderSimpleTool, pyContains, pyGet, hsub, hinp, bind_ok_eq]
  · intro hd; rw [hd]; rfl
  · intro hc; rw [hc]; rfl
  · intro hi; rw [hi]; rfl

/-- Witness for C8: the one-key descriptor `{"tool_id": "spotify"}` renders
with the id as heading and both defaults, and no use-case block. -/
theorem C8_witness :
    renderTool (.obj [("tool_id", .str "spotify")])
      = .ok ("\n### spotify\n- **ID**: `spotify`\n- **Category**: Unknown"
          ++ "\n- **Integration**: Unknown\n\n") := by
  obtain ⟨tid, dname, cat, integ, h1, h2, h3, h4, hr, -, -, -⟩ :=
    C8_simple_render [("tool_id", .str "spotify")] rfl rfl
  subst h1 h2 h3 h4
  exact hr.trans rfl

/-! ## Claim C10 -/

/-- Claim C10: `generate` requires every tool descriptor to contain
`tool_id` — the Tool-Text Renderer itself accepts a Complex descriptor
without one, but after the external call the orchestrator evaluates
`t['tool_id']` for every tool, so such an input makes `generate` raise
KeyError (after the network call) instead of returning a result. -/
theorem C10_generate_keyError :
    renderToolText [Json.obj [("main_system", .str "Watch"),
        ("sub_systems", .obj [("s1", .obj [("system_name", .str "HR")])])]]
      = .ok "\n### Watch\n- **Integration Score**: N/A/10\n\n#### HR\n- **Description**: No description\n\n"
    ∧ extractToolIds [Json.obj [("main_system", .str "Watch"),
        ("sub_systems", .obj [("s1", .obj [("system_name", .str "HR")])])]]
      = .error (.keyError "tool_id")
    ∧ generate "p" [Json.obj [("main_system", .str "Watch"),
        ("sub_systems", .obj [("s1", .obj [("system_name", .str "HR")])])]] "sys" none (4/5)
        (.ok ⟨"\x7b\x7d", .ok (.obj []), 10, 20⟩) 100
      = ⟨.error (.py (.keyError "tool_id")), true⟩ :=
  ⟨rfl, rfl, rfl⟩

end PromptLab
